import Mathlib

/-!
Shallow embedding of the OMNI orchestration engine (directory `src/omni`):
the task-state record, the workflow nodes and conditional edges, the crew
registry, the validation-and-correction engine and the context-window
builder, together with theorems settling the behavioural claims about them.

Conventions of the embedding:
- Python dict payloads become association lists over `JValue`.
- Wall-clock data (timestamps, `duration_ms` measurements) is abstracted:
  `duration_ms` fields are kept but populated with the constant the source
  would compute in zero elapsed time, and `timestamp`/`started_at` fields
  are dropped, since no claim mentions real time.
- Calls to the external reasoning service are oracles: a parameter of the
  function that embeds the node, covering every possible service behaviour.
- Python exceptions become explicit result constructors.
-/

namespace Omni

/-- JSON-like values: the shape of the untyped dict payloads threaded
through history, partial_results and crew input/output in the source. -/
inductive JValue where
  | null
  | bool (b : Bool)
  | num (n : Int)
  | rat (q : ℚ)
  | str (s : String)
  | arr (elems : List JValue)
  | obj (fields : List (String × JValue))

/-- A Python dict with string keys, as an association list. -/
abbrev JObj := List (String × JValue)

mutual

/-- Approximation of Python `str()` on a payload value (`None` renders as
"None", etc.).  Only the fact that it is some deterministic string matters
to the claims; no claim depends on the exact rendering. -/
def JValue.render : JValue → String
  | .null => "None"
  | .bool b => cond b "True" "False"
  | .num n => toString n
  | .rat q => toString q
  | .str s => s
  | .arr es => "[" ++ JValue.renderList es ++ "]"
  | .obj fs => "\x7b" ++ JValue.renderFields fs ++ "\x7d"

/-- Comma-separated rendering of a list of values. -/
def JValue.renderList : List JValue → String
  | [] => ""
  | [v] => v.render
  | v :: vs => v.render ++ ", " ++ JValue.renderList vs

/-- Comma-separated rendering of a dict's fields. -/
def JValue.renderFields : List (String × JValue) → String
  | [] => ""
  | [(k, v)] => k ++ ": " ++ v.render
  | (k, v) :: fs => k ++ ": " ++ v.render ++ ", " ++ JValue.renderFields fs

end

/-- Python `str(x)` where `x` is already a string leaves it unchanged;
other values are rendered. -/
def JValue.asStr : JValue → String
  | .str s => s
  | v => v.render

/-- `omni.core.state.Action`: orchestrator action types. -/
inductive Action where
  | delegate
  | ask_human
  | complete
  | error
  deriving DecidableEq, Repr

/-- The string value of an `Action` (it is a Python `str` enum). -/
def Action.value : Action → String
  | .delegate => "delegate"
  | .ask_human => "ask_human"
  | .complete => "complete"
  | .error => "error"

/-- `omni.core.state.StepType`: step record types. -/
inductive StepType where
  | query_analysis
  | orchestrator_decision
  | crew_execution
  | validation
  | human_input
  | error
  | response_collation
  deriving DecidableEq, Repr

/-- The string value of a `StepType` (a Python `str` enum). -/
def StepType.value : StepType → String
  | .query_analysis => "query_analysis"
  | .orchestrator_decision => "orchestrator_decision"
  | .crew_execution => "crew_execution"
  | .validation => "validation"
  | .human_input => "human_input"
  | .error => "error"
  | .response_collation => "response_collation"

/-- `omni.core.state.StepRecord` (the `timestamp` field is dropped: wall
clock, see the module docstring).  `input_data` is `Optional[Dict]` in the
source and the Execution node really stores Python `None` there when the
decision's crew_input is `None`; every node writes a dict into
`output_data`, which therefore stays a plain `JObj` here. -/
structure StepRecord where
  step_number : Nat
  step_type : StepType
  node_name : String
  input_data : Option JObj := none
  output_data : JObj := []
  duration_ms : Nat := 0
  model_used : Option String := none
  error : Option String := none

/-- `omni.core.state.ControlFlags` (the `started_at` field is dropped:
wall clock). -/
structure ControlFlags where
  max_steps : Nat := 20
  current_step : Nat := 0
  is_complete : Bool := false
  timeout_seconds : Nat := 300
  deriving DecidableEq, Repr

/-- `omni.core.state.ErrorState`. -/
structure ErrorState where
  error_type : String
  error_message : String
  retry_count : Nat := 0
  max_retries : Nat := 3
  fallback_crew : Option String := none
  deriving DecidableEq, Repr

/-- `omni.core.state.OrchestratorDecision`.  `confidence` is an exact
rational: the source's float literals (0.5, 1.0) are dyadic and exact. -/
structure OrchestratorDecision where
  action : Action
  target_crew : Option String := none
  crew_input : Option JObj := none
  reasoning : String
  confidence : ℚ

/-- `model_dump()` of an `OrchestratorDecision`, as stored in
`current_decision` and in history `output_data`. -/
def OrchestratorDecision.model_dump (d : OrchestratorDecision) : JObj :=
  [("action", .str d.action.value),
   ("target_crew", match d.target_crew with
     | some t => .str t
     | none => .null),
   ("crew_input", match d.crew_input with
     | some o => .obj o
     | none => .null),
   ("reasoning", .str d.reasoning),
   ("confidence", .rat d.confidence)]

/-- `omni.core.state.QueryAnalysis`.  `complexity` and `workflow_pattern`
are kept as their string enum values. -/
structure QueryAnalysis where
  intent : String
  required_departments : List String
  complexity : String
  workflow_pattern : String
  parameters : JObj := []

/-- A context message (`role`, `content`); the `timestamp` is dropped. -/
structure ContextMessage where
  role : String
  content : String

/-- `partial_results`: a Python dict whose keys are crew names.  The key
type is `Option String` because `crew_execution` uses
`decision.get("target_crew")` -- which may be Python `None` -- directly as
the dict key. -/
abbrev PartialResults := List (Option String × JObj)

/-- Dict key membership (`k in d`). -/
def hasKey (pr : PartialResults) (k : Option String) : Bool :=
  (pr.lookup k).isSome

/-- Rendering of a possibly-absent crew name inside Python f-strings
(`None` renders as "None"). -/
def renderOptStr : Option String → String
  | some s => s
  | none => "None"

/-- A `partial_results` key as a JSON value (list(dict.keys()) snapshots). -/
def keyJ : Option String → JValue
  | some s => .str s
  | none => .null

/-- `omni.core.state.OmniState`: the global workflow state.  The fields
`available_crews`, `available_skills` and `human_in_the_loop` are carried
by the source but read by no node this development reasons about; they are
dropped.  `context_messages` is the key the decision node and the context
manager read with `state.get("context_messages", [])`. -/
structure OmniState where
  task_id : String
  session_id : String
  original_task : String
  current_objective : String
  status : String
  history : List StepRecord
  partial_results : PartialResults
  context_messages : List ContextMessage
  query_analysis : Option QueryAnalysis
  current_decision : Option OrchestratorDecision
  control : ControlFlags
  error_state : Option ErrorState
  final_response : Option String

/-- `omni.core.state.create_initial_state`. -/
def create_initial_state (task_id session_id original_task : String) : OmniState :=
  { task_id := task_id
    session_id := session_id
    original_task := original_task
    current_objective := original_task
    status := "pending"
    history := []
    partial_results := []
    context_messages := []
    query_analysis := none
    current_decision := none
    control := { max_steps := 20, current_step := 0, is_complete := false, timeout_seconds := 300 }
    error_state := none
    final_response := none }

/-- The partial state update a LangGraph node returns.  A `none` in an
optional field means the node's returned dict does not contain that key
(so the channel keeps its previous value); the list-valued fields use the
state schema's reducers (`add_to_list` for history, `update_dict` for
partial_results). -/
structure NodeUpdate where
  history : List StepRecord := []
  partial_results : PartialResults := []
  current_decision : Option OrchestratorDecision := none
  control : Option ControlFlags := none
  error_state : Option ErrorState := none
  status : Option String := none
  final_response : Option String := none

/-- `omni.core.state.update_dict`: Python `existing.copy(); result.update(new)`
-- existing keys keep their position and take the new value, new keys are
appended. -/
def updateDict (existing nw : PartialResults) : PartialResults :=
  (existing.map fun kv =>
    match nw.lookup kv.1 with
    | some v => (kv.1, v)
    | none => kv) ++
  nw.filter fun kv => (existing.lookup kv.1).isNone

/-- Merge a node's returned partial update into the state, with the
reducers declared on `OmniState` (`add_to_list`, `update_dict`; plain
channels are overwritten when the update carries them). -/
def applyUpdate (s : OmniState) (u : NodeUpdate) : OmniState :=
  { s with
    history := s.history ++ u.history
    partial_results := updateDict s.partial_results u.partial_results
    current_decision := match u.current_decision with
      | some d => some d
      | none => s.current_decision
    control := match u.control with
      | some c => c
      | none => s.control
    error_state := match u.error_state with
      | some e => some e
      | none => s.error_state
    status := match u.status with
      | some st => st
      | none => s.status
    final_response := match u.final_response with
      | some r => some r
      | none => s.final_response }

/-! ## Workflow nodes (`omni.orchestrator.nodes`) -/

/-- The crew_input shape the Decision node's fallback builds
(orchestrator_decision.py:157-166): a dedicated shape for "research", the
generic task/context shape otherwise. -/
def fallbackInput (s : OmniState) (target_crew : String) : JObj :=
  if target_crew = "research" then
    [("query", .str s.original_task),
     ("depth", .str "standard"),
     ("sources_required", .num 5)]
  else
    [("task", .str s.original_task),
     ("context", .str s.current_objective)]

/-- The decision the heuristic fallback computes from a present
QueryAnalysis dump (orchestrator_decision.py:148-181): delegate to the
first required department absent from partial_results, else complete. -/
def fallbackDecision (s : OmniState) (qa : QueryAnalysis) : OrchestratorDecision :=
  let required_departments := qa.required_departments
  let missing_departments :=
    required_departments.filter fun dept => !(hasKey s.partial_results (some dept))
  match missing_departments with
  | target_crew :: _ =>
    { action := .delegate
      target_crew := some target_crew
      crew_input := some (fallbackInput s target_crew)
      reasoning := "Fallback: Delegating to " ++ target_crew
      confidence := 1/2 }
  | [] =>
    { action := .complete
      reasoning := "Fallback: All required departments have results"
      confidence := 1/2 }

/-- The single return dict `orchestrator_decision` builds once a decision
exists (orchestrator_decision.py:185-204): store the decision, advance
current_step, append the StepRecord stamped with the pre-increment step
number. -/
def decisionUpdate (s : OmniState) (decision : OrchestratorDecision) : NodeUpdate :=
  { current_decision := some decision
    control := some { s.control with current_step := s.control.current_step + 1 }
    history := [{ step_number := s.control.current_step
                  step_type := .orchestrator_decision
                  node_name := "orchestrator_decision"
                  input_data := some [("step", .num s.control.current_step),
                                      ("max_steps", .num s.control.max_steps),
                                      ("original_task", .str (s.original_task.take 100))]
                  output_data := decision.model_dump
                  duration_ms := 0
                  model_used := some "qwen3:14b" }] }

/-- `omni.orchestrator.nodes.orchestrator_decision.orchestrator_decision`.

The `llm` parameter is the oracle for the whole try-block around the
reasoning service: `some d` when `model.invoke` succeeded and its response
text decoded (directly or via the embedded-JSON regex) and validated into
an `OrchestratorDecision`; `none` for any failure on that path (connection
or timeout error, no decodable JSON, or a decode that fails the Decision
contract), which in the source raises and lands in the except-branch that
computes the heuristic fallback.  Prompt construction feeds only the
oracle's input and is therefore absorbed by the oracle.

The node can itself raise, hence `Except`: the fallback reads
`state.get("query_analysis", {}).get("required_departments", ["research"])`
(orchestrator_decision.py:147-148), and `create_initial_state` stores
`query_analysis = None`, so on a state where the analyzer has not replaced
that `None` the fallback raises AttributeError out of the node.  When the
stored value is a dict it is always a full `QueryAnalysis.model_dump()`
(both paths of `query_analyzer` store one), so the absent-key default
["research"] is unreachable and `required_departments` is read from the
dump. -/
def orchestrator_decision (llm : Option OrchestratorDecision) (s : OmniState) :
    Except String NodeUpdate :=
  let current_step := s.control.current_step
  let max_steps := s.control.max_steps
  if current_step ≥ max_steps then
    let decision : OrchestratorDecision :=
      { action := .complete, reasoning := "Maximum step limit reached", confidence := 1 }
    .ok { current_decision := some decision
          control := some { s.control with current_step := current_step + 1 }
          history := [{ step_number := current_step
                        step_type := .orchestrator_decision
                        node_name := "orchestrator_decision"
                        input_data := some [("max_steps_reached", .bool true)]
                        output_data := decision.model_dump
                        duration_ms := 0
                        model_used := some "qwen3:14b" }] }
  else
    match llm with
    | some d => .ok (decisionUpdate s d)
    | none =>
      match s.query_analysis with
      | none =>
        -- query_analysis.get(...) on the stored None: AttributeError
        -- propagates out of the node (raised inside the except handler).
        .error "'NoneType' object has no attribute 'get'"
      | some qa => .ok (decisionUpdate s (fallbackDecision s qa))

/-- The decision carried by a node outcome: the stored current_decision
when the node returned, nothing when it raised. -/
def decisionOf : Except String NodeUpdate → Option OrchestratorDecision
  | .ok u => u.current_decision
  | .error _ => none

/-- The hard-coded crew-name list inside `department_router` ("For Phase 3:
just validate the crew name"). -/
def valid_crews : List String :=
  ["github", "research", "social", "analysis", "writing", "coding"]

/-- Python falsiness of `decision.get("target_crew")`: `None` or "". -/
def isFalsyTarget : Option String → Bool
  | none => true
  | some s => s.isEmpty

/-- The dict stored in `current_decision` (`state.get("current_decision", {})`
is the decision's `model_dump`, or the empty dict when absent). -/
def decisionDict (s : OmniState) : JObj :=
  match s.current_decision with
  | some d => d.model_dump
  | none => []

/-- `omni.orchestrator.nodes.department_router.department_router`. -/
def department_router (s : OmniState) : NodeUpdate :=
  let decision := decisionDict s
  let target_crew : Option String := s.current_decision.bind (·.target_crew)
  if isFalsyTarget target_crew then
    { error_state := some { error_type := "RoutingError"
                            error_message := "No target crew specified in decision"
                            retry_count := 0
                            max_retries := 3 }
      history := [{ step_number := s.control.current_step
                    step_type := .error
                    node_name := "department_router"
                    input_data := some decision
                    output_data := [("error", .str "No target crew specified")]
                    duration_ms := 0
                    error := some "No target crew specified" }] }
  else
    let t := renderOptStr target_crew
    if t ∈ valid_crews then
      { history := [{ step_number := s.control.current_step
                      step_type := .orchestrator_decision
                      node_name := "department_router"
                      input_data := some decision
                      output_data := [("target_crew", .str t), ("status", .str "routed")]
                      duration_ms := 0 }] }
    else
      { error_state := some { error_type := "RoutingError"
                              error_message := "Invalid crew: " ++ t
                              retry_count := 0
                              max_retries := 3 }
        history := [{ step_number := s.control.current_step
                      step_type := .error
                      node_name := "department_router"
                      input_data := some decision
                      output_data := [("error", .str ("Invalid crew: " ++ t))]
                      duration_ms := 0
                      error := some ("Invalid crew: " ++ t) }] }

/-- `omni.orchestrator.nodes.validation.validation`: the pass-through
placeholder ("Mock validation (always passes)"). -/
def validation (s : OmniState) : NodeUpdate :=
  { history := [{ step_number := s.control.current_step
                  step_type := .validation
                  node_name := "validation"
                  input_data := some [("partial_results", .arr (s.partial_results.map fun kv => keyJ kv.1))]
                  output_data := [("valid", .bool true)]
                  duration_ms := 100 }] }

/-! ## Edges and graph wiring (`omni.orchestrator.edges`, `omni.orchestrator.graph`) -/

/-- `omni.orchestrator.edges.route_after_decision`: the node name the edge
function returns for each action (`decision.get("action")` on the dumped
decision; a missing decision or unknown action falls to the final branch). -/
def route_after_decision (s : OmniState) : String :=
  match s.current_decision with
  | some d =>
    match d.action with
    | .delegate => "department_router"
    | .ask_human => "human_in_the_loop"
    | .complete => "response_collator"
    | .error => "exception_handler"
  | none => "exception_handler"

/-- `omni.orchestrator.edges.route_after_validation`. -/
def route_after_validation (_ : OmniState) : String :=
  "orchestrator_decision"

/-- The nodes `create_workflow` adds to the graph. -/
def graphNodes : List String :=
  ["query_analyzer", "orchestrator_decision", "department_router",
   "crew_execution", "validation", "response_collator", "output"]

/-- The path map of the conditional edges leaving `orchestrator_decision`
in `create_workflow`: the possible return values of `route_after_decision`
that are wired to a destination node. -/
def decisionPathMap : List (String × String) :=
  [("department_router", "department_router"),
   ("response_collator", "response_collator")]

/-- The unconditional edges of `create_workflow` (source node ↦ target). -/
def unconditionalEdges : List (String × String) :=
  [("query_analyzer", "orchestrator_decision"),
   ("department_router", "crew_execution"),
   ("crew_execution", "validation"),
   ("response_collator", "output")]

/-- Where the graph actually sends control after `orchestrator_decision`:
the edge function's result resolved through the conditional-edge path map.
`none` means the returned name has no entry (LangGraph raises at run time
on such a branch result: control reaches no node). -/
def resolveDecisionEdge (s : OmniState) : Option String :=
  decisionPathMap.lookup (route_after_decision s)

/-! ## Crew registry (`omni.registry.crew_registry`, `omni.crews.base`) -/

/-- A built CrewAI `Crew` instance: its observable behaviour is `kickoff`,
which either returns a result dict (the source's result-to-dict conversion
is absorbed into the oracle's output) or raises, modelled as `.error` with
the exception's `str()`. -/
structure CrewObj where
  kickoff : JObj → Except String JObj

/-- A registered crew class (`BaseCrew` subclass): its `name` attribute,
`description` and the behaviour of its `build_crew` method, which either
produces a `CrewObj` or raises (modelled as `.error` with the exception's
`str()`). -/
structure CrewClass where
  name : String
  description : String := ""
  build_crew : Except String CrewObj

/-- A `BaseCrew` instance: its class together with the `self._crew` cache
(initialised to `None` by `BaseCrew.__init__`). -/
structure CrewInstance where
  cls : CrewClass
  crew : Option CrewObj := none

/-- The observable operations a crew execution performs, used to state
how often a crew is built. -/
inductive ExecEvent where
  | build (crew_name : String)
  | kickoff (crew_name : String)
  deriving DecidableEq, Repr

/-- The possible outcomes of a crew call as seen by a caller of
`CrewRegistry.execute`: a result dict, a raised `CrewExecutionError`
(message-only exception), a raised `ValueError`, or any other exception
propagating raw (`rawError` carries its `str()`). -/
inductive CrewCallResult where
  | ok (output : JObj)
  | crewExecutionError (msg : String)
  | valueError (msg : String)
  | rawError (msg : String)

/-- Whether the outcome is a wrapped `CrewExecutionError`. -/
def CrewCallResult.isWrapped : CrewCallResult → Bool
  | .crewExecutionError _ => true
  | _ => false

/-- `omni.crews.base.BaseCrew.execute`.  The build step
(`if self._crew is None: self._crew = self.build_crew()`) runs OUTSIDE the
try-block, so a failure there propagates raw; only `kickoff` failures are
wrapped into `CrewExecutionError("Crew '<name>' execution failed: <msg>")`.
Returns the outcome, the mutated instance (`self` after the call) and the
operations performed. -/
def CrewInstance.execute (inst : CrewInstance) (input_data : JObj) :
    CrewCallResult × CrewInstance × List ExecEvent :=
  match inst.crew with
  | none =>
    match inst.cls.build_crew with
    | .error e => (.rawError e, inst, [.build inst.cls.name])
    | .ok c =>
      let inst' := { inst with crew := some c }
      match c.kickoff input_data with
      | .ok r => (.ok r, inst', [.build inst.cls.name, .kickoff inst.cls.name])
      | .error e =>
        (.crewExecutionError ("Crew '" ++ inst.cls.name ++ "' execution failed: " ++ e),
         inst', [.build inst.cls.name, .kickoff inst.cls.name])
  | some c =>
    match c.kickoff input_data with
    | .ok r => (.ok r, inst, [.kickoff inst.cls.name])
    | .error e =>
      (.crewExecutionError ("Crew '" ++ inst.cls.name ++ "' execution failed: " ++ e),
       inst, [.kickoff inst.cls.name])

/-- `omni.registry.crew_registry.CrewRegistry`: the `_crews` mapping
(`register` keys it by each class's `name` attribute).  `__init__` creates
no instance cache: `_crews`, `_crew_info` and `_discovered` are its only
fields, and `execute` mutates none of them. -/
structure CrewRegistry where
  crews : List (String × CrewClass)

/-- `CrewRegistry.get`. -/
def CrewRegistry.get (reg : CrewRegistry) (name : String) : Option CrewClass :=
  reg.crews.lookup name

/-- `CrewRegistry.is_registered` (`name in self._crews`); callable with
Python `None`, which is in no string-keyed dict. -/
def CrewRegistry.is_registered (reg : CrewRegistry) (name : Option String) : Bool :=
  match name with
  | some n => (reg.crews.lookup n).isSome
  | none => false

/-- `CrewRegistry.execute`: resolve the class, then
`crew_instance = crew_class()` -- a FRESH instance whose `_crew` cache is
`None` -- and call its `execute`.  The instance is a local variable and is
dropped when the call returns.  Also returns the operations performed. -/
def CrewRegistry.execute (reg : CrewRegistry) (name : String) (input_data : JObj) :
    CrewCallResult × List ExecEvent :=
  match reg.get name with
  | none => (.valueError ("Crew '" ++ name ++ "' not found in registry"), [])
  | some crew_class =>
    let crew_instance : CrewInstance := { cls := crew_class, crew := none }
    let r := crew_instance.execute input_data
    (r.1, r.2.2)

/-- The operations performed by a sequence of `CrewRegistry.execute` calls
on one registry instance.  `execute` does not mutate the registry (its
only fields are `_crews`, `_crew_info`, `_discovered`), so the sequence is
the concatenation of independent calls. -/
def CrewRegistry.executeSeq (reg : CrewRegistry) (calls : List (String × JObj)) :
    List ExecEvent :=
  (calls.map fun c => (reg.execute c.1 c.2).2).flatten

/-- The crew names `CrewRegistry.discover` registers when scanning
`src/omni/crews` in this repository: one `BaseCrew` subclass per
department package -- AnalysisCrew, CodingCrew, DoCrew, GitHubCrew,
ResearchCrew, SocialCrew, WritingCrew -- keyed by each class's `name`
attribute. -/
def discoveredCrewNames : List String :=
  ["analysis", "coding", "do", "github", "research", "social", "writing"]

/-- `crew_input = decision.get("crew_input", {})` in `crew_execution`:
when a decision is stored its dump carries the key, whose value is Python
`None` (modelled `none`) or a dict; only when no decision is stored does
the absent-key default `{}` apply. -/
def crewInputOf : Option OrchestratorDecision → Option JObj
  | some d => d.crew_input
  | none => some []

/-- `omni.orchestrator.nodes.crew_execution`: the error update returned
when `registry.is_registered(target_crew)` is false (including the Python
`None` target); the record stores the raw crew_input, which may itself be
Python `None`. -/
def crewNotFoundUpdate (s : OmniState) (target_crew : Option String)
    (crew_input : Option JObj) : NodeUpdate :=
  let t := renderOptStr target_crew
  let error_output : JObj :=
    [("crew", keyJ target_crew),
     ("error", .str ("Crew '" ++ t ++ "' not found in registry")),
     ("status", .str "failed")]
  { partial_results := [(target_crew, error_output)]
    history := [{ step_number := s.control.current_step
                  step_type := .crew_execution
                  node_name := "crew_execution"
                  input_data := crew_input
                  output_data := error_output
                  duration_ms := 0
                  model_used := some (t ++ "_crew")
                  error := some ("Crew '" ++ t ++ "' not found") }] }

/-- The update `crew_execution` returns from its except-branch: a failed
entry carrying the caught exception's message. -/
def crewFailedUpdate (s : OmniState) (t : String) (crew_input : Option JObj)
    (e : String) : NodeUpdate :=
  let error_output : JObj :=
    [("crew", .str t), ("error", .str e), ("status", .str "failed")]
  { partial_results := [(some t, error_output)]
    history := [{ step_number := s.control.current_step
                  step_type := .crew_execution
                  node_name := "crew_execution"
                  input_data := crew_input
                  output_data := error_output
                  duration_ms := 0
                  model_used := some (t ++ "_crew")
                  error := some e }] }

/-- `omni.orchestrator.nodes.crew_execution.crew_execution`.  When the
target is registered, `registry.execute(target, crew_input)` runs inside
a try-block: a success is recorded into partial_results with status
"completed", and ANY exception is caught and recorded with status
"failed" and the exception's message -- the node itself never raises.
When the stored crew_input is Python `None`, `BaseCrew.execute` raises
AttributeError on `list(input_data.keys())` before building or kicking
off anything; that exception is caught here like any other and recorded
as a failed entry. -/
def crew_execution (reg : CrewRegistry) (s : OmniState) : NodeUpdate :=
  let target_crew : Option String := s.current_decision.bind (·.target_crew)
  let crew_input : Option JObj := crewInputOf s.current_decision
  match target_crew with
  | none => crewNotFoundUpdate s none crew_input
  | some t =>
    match reg.get t with
    | none => crewNotFoundUpdate s (some t) crew_input
    | some _ =>
      match crew_input with
      | none =>
        crewFailedUpdate s t none "'NoneType' object has no attribute 'keys'"
      | some inp =>
        match (reg.execute t inp).1 with
        | .ok result =>
          let output : JObj :=
            [("crew", .str t), ("result", .obj result), ("status", .str "completed")]
          { partial_results := [(some t, output)]
            history := [{ step_number := s.control.current_step
                          step_type := .crew_execution
                          node_name := "crew_execution"
                          input_data := some inp
                          output_data := output
                          duration_ms := 0
                          model_used := some (t ++ "_crew") }] }
        | .crewExecutionError e | .valueError e | .rawError e =>
          crewFailedUpdate s t (some inp) e

/-! ## Validation-and-correction engine (`omni.validators.base`) -/

/-- A Pydantic `ValidationError`: the list of per-error messages
(`[err["msg"] for err in e.errors()]`) and its `str(e)` rendering. -/
structure VError where
  msgs : List String
  rendered : String

/-- A Pydantic schema class, observable through `model_validate`:
success yields the validated model's `model_dump()`, failure a
`ValidationError`.  `json_schema` is the `model_json_schema()` text used
only inside the correction prompt. -/
structure Schema where
  model_validate : JObj → Except VError JObj
  json_schema : String := ""

/-- `omni.validators.schemas.common.ValidatedResult`. -/
structure ValidatedResult where
  valid : Bool
  data : Option JObj := none
  errors : List String := []
  corrections : Option JObj := none
  schema_name : String := "unknown"

/-- Oracle for one correction pass, indexed by pass number when the
engine consults several:
`serviceError` = any exception before/at `model.invoke` (the outer except
                 in `_attempt_correction`), with its `str()`;
`decodeError`  = `json.loads(response.content)` raises, with its `str()`;
`decoded`      = the service replied and its content decoded to this dict. -/
inductive CorrectionService where
  | serviceError (msg : String)
  | decodeError (msg : String)
  | decoded (payload : JObj)

/-- `omni.validators.base.BaseValidator` configuration. -/
structure BaseValidator where
  model_name : String := "phi3.5:3.8b"
  max_correction_attempts : Nat := 2
  corrections_enabled : Bool := true

/-- `BaseValidator._attempt_correction`.  The source makes a single
correction pass (it consults pass 0 of the oracle only); the second
component counts the correction passes performed, which is 1 on every
path through this method. -/
def BaseValidator.attempt_correction (_v : BaseValidator)
    (svc : Nat → CorrectionService) (_data : JObj) (schema : Schema)
    (schema_name : String) (original_error : VError) :
    ValidatedResult × Nat :=
  let errors := original_error.msgs
  match svc 0 with
  | .serviceError e =>
    ({ valid := false, data := none,
       errors := errors ++ ["Correction error: " ++ e],
       schema_name := schema_name }, 1)
  | .decodeError e =>
    ({ valid := false, data := none,
       errors := errors ++ ["Correction failed: " ++ e],
       schema_name := schema_name }, 1)
  | .decoded corrected_data =>
    match schema.model_validate corrected_data with
    | .ok validated =>
      ({ valid := true, data := some validated,
         corrections := some corrected_data,
         schema_name := schema_name }, 1)
    | .error e2 =>
      ({ valid := false, data := none,
         errors := errors ++ ["Correction failed: " ++ e2.rendered],
         schema_name := schema_name }, 1)

/-- `BaseValidator.validate`.  The second component counts correction
passes (reasoning-service invocations) performed. -/
def BaseValidator.validate (v : BaseValidator) (svc : Nat → CorrectionService)
    (data : JObj) (schema : Schema) (schema_name : String) :
    ValidatedResult × Nat :=
  match schema.model_validate data with
  | .ok validated =>
    ({ valid := true, data := some validated, schema_name := schema_name }, 0)
  | .error e =>
    if v.corrections_enabled then
      v.attempt_correction svc data schema schema_name e
    else
      ({ valid := false, data := none, errors := e.msgs,
         schema_name := schema_name }, 0)

/-! ## Context-window builder (`omni.memory.context`) -/

/-- `omni.memory.context.ContextManager` configuration (defaults 8192 and
2048); `available_tokens` is computed in `__init__`. -/
structure ContextManager where
  max_tokens : Nat := 8192
  reserved_tokens : Nat := 2048
  deriving DecidableEq, Repr

/-- `self.available_tokens = max_tokens - reserved_tokens` (Python int
subtraction, so over ℤ). -/
def ContextManager.available_tokens (cm : ContextManager) : Int :=
  (cm.max_tokens : Int) - (cm.reserved_tokens : Int)

/-- The class constants of `ContextManager`. -/
def TASK_TOKENS : Nat := 500
/-- Class constant. -/
def OBJECTIVE_TOKENS : Nat := 300
/-- Class constant. -/
def RESULTS_TOKENS : Nat := 2000
/-- Class constant. -/
def HISTORY_TOKENS : Nat := 1000
/-- Class constant. -/
def CONTEXT_TOKENS : Nat := 2000

/-- `ContextManager.estimate_tokens`: `len(text) // 4`. -/
def estimate_tokens (text : String) : Nat :=
  text.length / 4

/-- The five context sections `build_context` assembles (the Python dict
with keys task, objective, results, history, context_msgs). -/
structure ContextSections where
  task : String
  objective : String
  results : String
  history : String
  context_msgs : String
  deriving DecidableEq, Repr

/-- `sum(self.estimate_tokens(v) for v in context.values())`. -/
def totalTokens (c : ContextSections) : Nat :=
  estimate_tokens c.task + estimate_tokens c.objective + estimate_tokens c.results +
    estimate_tokens c.history + estimate_tokens c.context_msgs

/-- `ContextManager._format_results`.  In this embedding every stored
result is a dict, so the `isinstance(result, dict)` branch applies:
`result.get("summary", str(result))[:200]`. -/
def format_results (partial_results : PartialResults) : String :=
  if partial_results.isEmpty then "(No completed work yet)"
  else
    (String.intercalate "\n" (partial_results.map fun kv =>
      let summary :=
        (match kv.2.lookup "summary" with
         | some v => v.asStr
         | none => (JValue.obj kv.2).render).take 200
      "- " ++ renderOptStr kv.1 ++ ": " ++ summary)).take (RESULTS_TOKENS * 4)

/-- `ContextManager._format_history` (last 3 records). -/
def format_history (history : List StepRecord) : String :=
  if history.isEmpty then "(No history yet)"
  else
    let recent := history.drop (history.length - 3)
    let lines := recent.map fun step =>
      let action := match step.output_data.lookup "action" with
        | some v => v.asStr
        | none => "N/A"
      "- Step " ++ toString step.step_number ++ ": " ++ step.step_type.value ++
        " (" ++ step.node_name ++ ") -> " ++ action
    (String.intercalate "\n" lines).take (HISTORY_TOKENS * 4)

/-- `ContextManager._get_context_messages` (last 5 messages, contents
capped at 100 characters). -/
def get_context_messages (s : OmniState) : String :=
  if s.context_messages.isEmpty then "(No additional context)"
  else
    let msgs := s.context_messages.drop (s.context_messages.length - 5)
    let lines := msgs.map fun msg => msg.role ++ ": " ++ msg.content.take 100
    (String.intercalate "\n" lines).take (CONTEXT_TOKENS * 4)

/-- Halving a section: `text[: len(text) // 2]`. -/
def halfStr (text : String) : String :=
  text.take (text.length / 2)

/-- The sections as `build_context` assembles them before any truncation. -/
def ContextManager.rawSections (_cm : ContextManager) (s : OmniState) : ContextSections :=
  { task := s.original_task.take (TASK_TOKENS * 4)
    objective := if s.current_objective.isEmpty then ""
      else s.current_objective.take (OBJECTIVE_TOKENS * 4)
    results := format_results s.partial_results
    history := format_history s.history
    context_msgs := get_context_messages s }

/-- `ContextManager._truncate` (its `total_tokens` parameter is unused in
the source and dropped here): halve context_msgs, recompute, halve history
if still over budget, recompute, halve results if still over budget. -/
def ContextManager.truncate (cm : ContextManager) (context : ContextSections) :
    ContextSections :=
  let context := { context with context_msgs := halfStr context.context_msgs }
  let total_tokens := totalTokens context
  let context :=
    if (total_tokens : Int) > cm.available_tokens then
      { context with history := halfStr context.history }
    else context
  let total_tokens := totalTokens context
  if (total_tokens : Int) > cm.available_tokens then
    { context with results := halfStr context.results }
  else context

/-- `ContextManager.build_context`. -/
def ContextManager.build_context (cm : ContextManager) (s : OmniState) :
    ContextSections :=
  let context := cm.rawSections s
  let total_tokens := totalTokens context
  if (total_tokens : Int) > cm.available_tokens then cm.truncate context
  else context

/-! ## Claim theorems -/

/-- A sample decision a hypothetical reasoning service could return, used
to exhibit oracle-independence at a concrete input. -/
def dSample : OrchestratorDecision :=
  { action := .delegate, target_crew := some "coding"
    crew_input := some [("task", .str "write code")]
    reasoning := "llm says so", confidence := 9/10 }

/-- A state whose step budget is exhausted: 3 steps taken, 3 allowed. -/
def sBudget : OmniState :=
  { create_initial_state "task-1" "sess-1" "do things" with
    control := { max_steps := 3, current_step := 3 } }

/-- C1: whenever `current_step >= max_steps`, one invocation of the
Decision node returns (it raises nothing) a decision with
`action=complete` and `confidence=1.0`, and the result does not depend on
the reasoning-service oracle -- the budget branch returns before the
service is invoked. -/
theorem c1_budget_forces_completion (llm llm' : Option OrchestratorDecision)
    (s : OmniState) (h : s.control.current_step ≥ s.control.max_steps) :
    decisionOf (orchestrator_decision llm s) =
      some { action := .complete, reasoning := "Maximum step limit reached",
             confidence := 1 } ∧
    orchestrator_decision llm s = orchestrator_decision llm' s := by
  constructor <;> simp [orchestrator_decision, decisionOf, h]

/-- C1 witness: the budget branch at a concrete exhausted state, for a
failing oracle and for an oracle that would delegate. -/
theorem c1_budget_witness :
    sBudget.control.current_step ≥ sBudget.control.max_steps ∧
    (decisionOf (orchestrator_decision none sBudget) =
       some { action := .complete, reasoning := "Maximum step limit reached",
              confidence := 1 } ∧
     orchestrator_decision none sBudget = orchestrator_decision (some dSample) sBudget) :=
  ⟨by decide, c1_budget_forces_completion none (some dSample) sBudget (by decide)⟩

/-- The default QueryAnalysis dump the analyzer's own fallback stores. -/
def qaResearchOnly : QueryAnalysis :=
  { intent := "general_query", required_departments := ["research"]
    complexity := "simple", workflow_pattern := "single_crew" }

/-- A fresh run right after query analysis: the initializer's state with
the analyzer's default QueryAnalysis stored. -/
def sInitQA : OmniState :=
  { create_initial_state "task-2" "sess-2" "study topic" with
    query_analysis := some qaResearchOnly }

/-- C2 counterexample: in a fresh run (query analysis stored, reasoning
service failing), the Decision node returns an update whose own
StepRecord carries step_number 0 while the Router record of the SAME
round carries step_number 1 -- the Decision node stores the pre-increment
value in its record but writes the post-increment value into `control`,
which the Router then reads. -/
theorem c2_counterexample :
    (orchestrator_decision none sInitQA).map
        (fun u => u.history.map (·.step_number)) = .ok [0] ∧
    (orchestrator_decision none sInitQA).map
        (fun u => (department_router (applyUpdate sInitQA u)).history.map
          (·.step_number)) = .ok [1] ∧
    (1 : Nat) ≠ 0 := by
  refine ⟨rfl, rfl, by decide⟩

/-- C2 as amended: on every invocation where the Decision node returns
(rather than raising in its fallback), `current_step` increments exactly
once and the Decision record carries the pre-increment step number; but
the Router/Execution/Validation records of the round carry the
POST-increment value (`decision step_number + 1`), not the same one:
each of those nodes stamps `state["control"]["current_step"]`, which the
Decision node has already advanced. -/
theorem c2_step_numbering (llm : Option OrchestratorDecision)
    (s s' : OmniState) (reg : CrewRegistry) :
    (∀ u, orchestrator_decision llm s = .ok u →
       u.control = some { s.control with current_step := s.control.current_step + 1 } ∧
       u.history.map (·.step_number) = [s.control.current_step] ∧
       (applyUpdate s u).control.current_step = s.control.current_step + 1) ∧
    ((department_router s').history.all
       fun r => r.step_number == s'.control.current_step) = true ∧
    ((crew_execution reg s').history.all
       fun r => r.step_number == s'.control.current_step) = true ∧
    ((validation s').history.all
       fun r => r.step_number == s'.control.current_step) = true := by
  refine ⟨?_, ?_, ?_, ?_⟩
  · intro u hu
    by_cases hb : s.control.current_step ≥ s.control.max_steps
    · simp [orchestrator_decision, hb] at hu
      subst hu
      exact ⟨rfl, rfl, by simp [applyUpdate]⟩
    · rcases llm with _ | d
      · rcases hqa : s.query_analysis with _ | qa
        · simp [orchestrator_decision, hb, hqa] at hu
        · simp [orchestrator_decision, hb, hqa] at hu
          subst hu
          exact ⟨rfl, rfl, by simp [decisionUpdate, applyUpdate]⟩
      · simp [orchestrator_decision, hb] at hu
        subst hu
        exact ⟨rfl, rfl, by simp [decisionUpdate, applyUpdate]⟩
  · cases hf : isFalsyTarget (s'.current_decision.bind fun d => d.target_crew)
    · by_cases hmem : renderOptStr (s'.current_decision.bind fun d => d.target_crew) ∈ valid_crews <;>
        simp [department_router, hf, hmem]
    · simp [department_router, hf]
  · rcases hdec : s'.current_decision.bind (fun d => d.target_crew) with _ | t
    · simp [crew_execution, crewNotFoundUpdate, hdec]
    · rcases hg : reg.get t with _ | cls
      · simp [crew_execution, crewNotFoundUpdate, hdec, hg]
      · rcases hin : crewInputOf s'.current_decision with _ | inp
        · simp [crew_execution, crewFailedUpdate, hdec, hg, hin]
        · rcases hr : (reg.execute t inp).1 with r | e | e | e <;>
            simp [crew_execution, crewFailedUpdate, hdec, hg, hin, hr]
  · simp [validation]

/-- The update the Decision node returns at `sInitQA` with a failing
reasoning service. -/
def uInitQA : NodeUpdate :=
  decisionUpdate sInitQA (fallbackDecision sInitQA qaResearchOnly)

/-- C2 witness: the amended step-numbering facts at the concrete fresh
run. -/
theorem c2_step_witness :
    uInitQA.control =
      some { sInitQA.control with current_step := sInitQA.control.current_step + 1 } ∧
    uInitQA.history.map (·.step_number) = [sInitQA.control.current_step] ∧
    (applyUpdate sInitQA uInitQA).control.current_step =
      sInitQA.control.current_step + 1 :=
  (c2_step_numbering none sInitQA sInitQA ⟨[]⟩).1 uInitQA rfl

/-- A decision with action `ask_human`, as the Decision node could store. -/
def dAskHuman : OrchestratorDecision :=
  { action := .ask_human, reasoning := "need user input", confidence := 2/5 }

/-- A state whose current decision asks for human input. -/
def sAskHuman : OmniState :=
  { create_initial_state "task-3" "sess-3" "clarify" with
    current_decision := some dAskHuman }

/-- C3 counterexample: on `action=ask_human` the edge function returns
"human_in_the_loop", which is NOT the Collation node and has no entry in
the graph's conditional-edge path map (and is not even a node of the
graph), so the workflow does not transition to Collation. -/
theorem c3_counterexample :
    route_after_decision sAskHuman = "human_in_the_loop" ∧
    resolveDecisionEdge sAskHuman = none ∧
    route_after_decision sAskHuman ≠ "response_collator" ∧
    "human_in_the_loop" ∉ graphNodes := by
  refine ⟨rfl, rfl, by decide, by decide⟩

/-- C3 as amended: `delegate` routes to the Router and `complete` to the
Collation node, as claimed; but `ask_human` and `error` do NOT fold into
Collation -- the edge function returns "human_in_the_loop" resp.
"exception_handler", neither of which has an entry in the path map passed
to `add_conditional_edges` (nor is either a node of the graph), so a run
reaching those actions errors out instead of transitioning. -/
theorem c3_route_after_decision (s : OmniState) (d : OrchestratorDecision)
    (hd : s.current_decision = some d) :
    (d.action = .delegate →
       route_after_decision s = "department_router" ∧
       resolveDecisionEdge s = some "department_router") ∧
    (d.action = .complete →
       route_after_decision s = "response_collator" ∧
       resolveDecisionEdge s = some "response_collator") ∧
    (d.action = .ask_human →
       route_after_decision s = "human_in_the_loop" ∧
       resolveDecisionEdge s = none ∧
       "human_in_the_loop" ∉ graphNodes) ∧
    (d.action = .error →
       route_after_decision s = "exception_handler" ∧
       resolveDecisionEdge s = none ∧
       "exception_handler" ∉ graphNodes) := by
  refine ⟨fun ha => ?_, fun ha => ?_, fun ha => ?_, fun ha => ?_⟩ <;>
    (simp [route_after_decision, resolveDecisionEdge, decisionPathMap, graphNodes, hd, ha];
     try decide)

/-- C3 witness: the amended routing at a concrete ask_human state. -/
theorem c3_route_witness :
    route_after_decision sAskHuman = "human_in_the_loop" ∧
    resolveDecisionEdge sAskHuman = none ∧
    "human_in_the_loop" ∉ graphNodes :=
  (c3_route_after_decision sAskHuman dAskHuman rfl).2.2.1 rfl

/-- A decision delegating to the "do" crew, which discovery registers. -/
def dDoCrew : OrchestratorDecision :=
  { action := .delegate, target_crew := some "do"
    crew_input := some [("task", .str "run the browser")]
    reasoning := "give it to the do department", confidence := 4/5 }

/-- A state whose current decision targets the registered crew "do". -/
def sDoCrew : OmniState :=
  { create_initial_state "task-4" "sess-4" "browse" with
    current_decision := some dDoCrew }

/-- A decision delegating to "research" (accepted by the router). -/
def dResearch : OrchestratorDecision :=
  { action := .delegate, target_crew := some "research"
    crew_input := some [("query", .str "AI trends")]
    reasoning := "research first", confidence := 4/5 }

/-- A state whose current decision targets "research". -/
def sResearch : OmniState :=
  { create_initial_state "task-4b" "sess-4b" "research" with
    current_decision := some dResearch }

/-- C4 counterexample: the crew name "do" IS registered by discovery
(DoCrew in `src/omni/crews/do/crew.py`), yet the Router rejects it and
records an ErrorState plus an error StepRecord -- the router checks a
hard-coded six-name list, not the Capability Registry, so "accepts exactly
the registered names" fails. -/
theorem c4_counterexample :
    "do" ∈ discoveredCrewNames ∧
    "do" ∉ valid_crews ∧
    (department_router sDoCrew).error_state =
      some { error_type := "RoutingError", error_message := "Invalid crew: do"
             retry_count := 0, max_retries := 3 } ∧
    (department_router sDoCrew).history.map (·.error) = [some "Invalid crew: do"] := by
  refine ⟨by decide, by decide, rfl, rfl⟩

/-- C4 as amended: the Router accepts exactly the names in its hard-coded
list ["github","research","social","analysis","writing","coding"] -- a
strict subset of what discovery registers ("do" is registered but
rejected).  The rest of the claim stands: on any name outside the list it
records an ErrorState and an error StepRecord but does not halt, and the
Router → Execution edge is unconditional. -/
theorem c4_router_validation (s : OmniState) (d : OrchestratorDecision) (t : String)
    (hd : s.current_decision = some d) (ht : d.target_crew = some t) :
    (t ∈ valid_crews →
       (department_router s).error_state = none ∧
       (department_router s).history.all (fun r => r.error.isNone) = true ∧
       (department_router s).history.length = 1) ∧
    (t ∉ valid_crews →
       ((department_router s).error_state).isSome = true ∧
       (department_router s).history.all (fun r => r.error.isSome) = true ∧
       (department_router s).history.length = 1) ∧
    valid_crews.all (discoveredCrewNames.contains ·) = true ∧
    discoveredCrewNames.all (valid_crews.contains ·) = false ∧
    unconditionalEdges.lookup "department_router" = some "crew_execution" := by
  have htarget : s.current_decision.bind (fun d => d.target_crew) = some t := by
    rw [hd]; simpa using ht
  refine ⟨fun hmem => ?_, fun hmem => ?_, by decide, by decide, by decide⟩
  · have hne : t.isEmpty = false := by
      simp [valid_crews] at hmem
      rcases hmem with rfl | rfl | rfl | rfl | rfl | rfl <;> decide
    simp [department_router, htarget, isFalsyTarget, hne, renderOptStr, hmem]
  · cases hne : t.isEmpty
    · simp [department_router, htarget, isFalsyTarget, hne, renderOptStr, hmem]
    · simp [department_router, htarget, isFalsyTarget, hne]

/-- C4 witness: the router accepts the registered name "research" with no
error, and rejects the registered name "do" with an error state, without
halting (both updates still carry exactly one StepRecord, and the edge
out of the Router is unconditional). -/
theorem c4_router_witness :
    ((department_router sResearch).error_state = none ∧
     (department_router sResearch).history.all (fun r => r.error.isNone) = true ∧
     (department_router sResearch).history.length = 1) ∧
    (((department_router sDoCrew).error_state).isSome = true ∧
     (department_router sDoCrew).history.all (fun r => r.error.isSome) = true ∧
     (department_router sDoCrew).history.length = 1) :=
  ⟨(c4_router_validation sResearch dResearch "research" rfl rfl).1 (by decide),
   (c4_router_validation sDoCrew dDoCrew "do" rfl rfl).2.1 (by decide)⟩

/-- A crew class whose `build_crew` raises (message "boom exploded"). -/
def clsBuildFail : CrewClass :=
  { name := "boom", build_crew := .error "boom exploded" }

/-- A registry holding only the build-failing crew. -/
def regBuildFail : CrewRegistry := ⟨[("boom", clsBuildFail)]⟩

/-- A crew object whose kickoff raises (message "nope"). -/
def objKickoffFail : CrewObj := ⟨fun _ => .error "nope"⟩

/-- A crew class that builds fine but whose kickoff raises. -/
def clsKickoffFail : CrewClass :=
  { name := "kf", build_crew := .ok objKickoffFail }

/-- A registry holding only the kickoff-failing crew. -/
def regKickoffFail : CrewRegistry := ⟨[("kf", clsKickoffFail)]⟩

/-- C5 counterexample: for the registered crew "boom", whose build step
raises, `CrewRegistry.execute` propagates the raw failure unchanged -- it
is not wrapped into a CrewExecutionError, because `BaseCrew.execute` runs
`self._crew = self.build_crew()` before entering its try-block. -/
theorem c5_counterexample :
    (regBuildFail.execute "boom" []).1 = .rawError "boom exploded" ∧
    ((regBuildFail.execute "boom" []).1).isWrapped = false :=
  ⟨rfl, rfl⟩

/-- C5 as amended: only failures raised by `kickoff` are wrapped, into a
`CrewExecutionError` whose message carries the crew name and the failure
message (no elapsed time is recorded anywhere in the error); a failure
raised while BUILDING the crew propagates raw to the registry's caller. -/
theorem c5_execute_wrapping (reg : CrewRegistry) (name : String) (cls : CrewClass)
    (input_data : JObj) (h : reg.get name = some cls) :
    (∀ m, cls.build_crew = .error m →
       (reg.execute name input_data).1 = .rawError m) ∧
    (∀ c m, cls.build_crew = .ok c → c.kickoff input_data = .error m →
       (reg.execute name input_data).1 =
         .crewExecutionError ("Crew '" ++ cls.name ++ "' execution failed: " ++ m)) ∧
    (∀ c r, cls.build_crew = .ok c → c.kickoff input_data = .ok r →
       (reg.execute name input_data).1 = .ok r) := by
  refine ⟨fun m hb => ?_, fun c m hb hk => ?_, fun c r hb hk => ?_⟩
  · simp [CrewRegistry.execute, CrewInstance.execute, h, hb]
  · simp [CrewRegistry.execute, CrewInstance.execute, h, hb, hk]
  · simp [CrewRegistry.execute, CrewInstance.execute, h, hb, hk]

/-- C5 witness: the kickoff-failure path at a concrete registry: the
outcome is the wrapped CrewExecutionError carrying name and message. -/
theorem c5_execute_witness :
    (regKickoffFail.execute "kf" []).1 =
      .crewExecutionError ("Crew '" ++ "kf" ++ "' execution failed: " ++ "nope") :=
  (c5_execute_wrapping regKickoffFail "kf" clsKickoffFail [] rfl).2.1
    objKickoffFail "nope" rfl rfl

/-- A crew object whose kickoff succeeds with an empty result dict. -/
def objPlain : CrewObj := ⟨fun _ => .ok []⟩

/-- A crew class that builds and kicks off successfully. -/
def clsPlain : CrewClass := { name := "x", build_crew := .ok objPlain }

/-- A registry holding only the well-behaved crew "x". -/
def regPlain : CrewRegistry := ⟨[("x", clsPlain)]⟩

/-- C6 counterexample: two `execute` calls for the same name on the same
registry perform TWO builds, not at most one -- `CrewRegistry.execute`
constructs a fresh `crew_class()` instance (whose `_crew` cache is empty)
on every call and discards it afterwards, and the registry itself caches
nothing. -/
theorem c6_counterexample :
    (regPlain.executeSeq [("x", []), ("x", [])]).count (.build "x") = 2 ∧
    ¬ (regPlain.executeSeq [("x", []), ("x", [])]).count (.build "x") ≤ 1 := by
  refine ⟨by decide, by decide⟩

/-- C6 as amended: the registry performs exactly one build per `execute`
call on a registered name (never zero): the per-instance `_crew` cache is
created empty on each call and dropped with the instance, so no build is
ever reused across `execute` calls. -/
theorem c6_build_per_call (reg : CrewRegistry) (name : String) (cls : CrewClass)
    (input_data : JObj) (h : reg.get name = some cls) :
    (reg.execute name input_data).2.count (.build cls.name) = 1 := by
  rcases hb : cls.build_crew with e | c
  · simp [CrewRegistry.execute, CrewInstance.execute, h, hb, List.count_cons]
  · rcases hk : c.kickoff input_data with r | e <;>
      simp [CrewRegistry.execute, CrewInstance.execute, h, hb, hk, List.count_cons]

/-- C6 witness: one build on a single call at the concrete registry. -/
theorem c6_build_witness :
    (regPlain.execute "x" []).2.count (.build "x") = 1 :=
  c6_build_per_call regPlain "x" clsPlain [] rfl

/-- A concrete schema accepting exactly dicts whose "x" field is 1. -/
def schemaX1 : Schema :=
  { model_validate := fun o =>
      match o.lookup "x" with
      | some (.num n) => if n = 1 then .ok o else .error ⟨["bad x"], "bad x"⟩
      | _ => .error ⟨["bad x"], "bad x"⟩ }

/-- A correction service whose first pass decodes to a payload that still
fails validation and whose second pass would decode to a valid one. -/
def svcTwoPass : Nat → CorrectionService := fun i =>
  if i = 0 then .decoded [("x", .num 2)] else .decoded [("x", .num 1)]

/-- A validator with the default configuration (corrections enabled,
max_correction_attempts = 2). -/
def vDefault : BaseValidator := {}

/-- C7 counterexample: with the default `max_correction_attempts = 2` and
corrections enabled, an invalid input whose FIRST repair pass decodes but
fails re-validation yields `valid=false` after exactly ONE service
invocation, even though the second pass (which the claim mandates) would
have produced a payload that re-validates -- the source never consults
`max_correction_attempts` and performs a single repair pass. -/
theorem c7_counterexample :
    vDefault.max_correction_attempts = 2 ∧
    vDefault.corrections_enabled = true ∧
    (vDefault.validate svcTwoPass [("x", .num 0)] schemaX1 "demo").2 = 1 ∧
    (vDefault.validate svcTwoPass [("x", .num 0)] schemaX1 "demo").1.valid = false ∧
    svcTwoPass 1 = .decoded [("x", .num 1)] ∧
    schemaX1.model_validate [("x", .num 1)] = .ok [("x", .num 1)] :=
  ⟨rfl, rfl, rfl, rfl, rfl, rfl⟩

/-- C7 as amended: on a validation failure with corrections enabled, the
engine performs EXACTLY one repair pass, whatever
`max_correction_attempts` is configured to (the field is never read):
if the pass decodes and re-validates the result is `valid=true` with
`corrections` populated, and on a service failure, a decode failure or a
re-validation failure it returns `valid=false` with the original errors
extended by a correction-failure note. -/
theorem c7_single_correction_pass (v : BaseValidator) (svc : Nat → CorrectionService)
    (data : JObj) (schema : Schema) (nm : String) (e : VError)
    (henabled : v.corrections_enabled = true)
    (hfail : schema.model_validate data = .error e) :
    (v.validate svc data schema nm).2 = 1 ∧
    (∀ m, ({ v with max_correction_attempts := m } : BaseValidator).validate
        svc data schema nm = v.validate svc data schema nm) ∧
    (∀ p d2, svc 0 = .decoded p → schema.model_validate p = .ok d2 →
       (v.validate svc data schema nm).1 =
         { valid := true, data := some d2, corrections := some p, schema_name := nm }) ∧
    (∀ p e2, svc 0 = .decoded p → schema.model_validate p = .error e2 →
       (v.validate svc data schema nm).1 =
         { valid := false, errors := e.msgs ++ ["Correction failed: " ++ e2.rendered],
           schema_name := nm }) ∧
    (∀ m, svc 0 = .serviceError m →
       (v.validate svc data schema nm).1 =
         { valid := false, errors := e.msgs ++ ["Correction error: " ++ m],
           schema_name := nm }) ∧
    (∀ m, svc 0 = .decodeError m →
       (v.validate svc data schema nm).1 =
         { valid := false, errors := e.msgs ++ ["Correction failed: " ++ m],
           schema_name := nm }) := by
  refine ⟨?_, fun m => rfl, fun p d2 h0 hv => ?_, fun p e2 h0 hv => ?_,
          fun m h0 => ?_, fun m h0 => ?_⟩
  case refine_2 =>
    simp [BaseValidator.validate, BaseValidator.attempt_correction, hfail, henabled, h0, hv]
  case refine_3 =>
    simp [BaseValidator.validate, BaseValidator.attempt_correction, hfail, henabled, h0, hv]
  case refine_4 =>
    simp [BaseValidator.validate, BaseValidator.attempt_correction, hfail, henabled, h0]
  case refine_5 =>
    simp [BaseValidator.validate, BaseValidator.attempt_correction, hfail, henabled, h0]
  rcases h0 : svc 0 with m | m | p
  · simp [BaseValidator.validate, BaseValidator.attempt_correction, hfail, henabled, h0]
  · simp [BaseValidator.validate, BaseValidator.attempt_correction, hfail, henabled, h0]
  · rcases hv : schema.model_validate p with d2 | e2 <;>
      simp [BaseValidator.validate, BaseValidator.attempt_correction, hfail, henabled, h0, hv]

/-- C7 witness: one pass performed at the concrete scenario. -/
theorem c7_single_pass_witness :
    (vDefault.validate svcTwoPass [("x", .num 0)] schemaX1 "demo").2 = 1 :=
  (c7_single_correction_pass vDefault svcTwoPass [("x", .num 0)] schemaX1 "demo"
      ⟨["bad x"], "bad x"⟩ rfl rfl).1

/-- C8: on a state whose latest QueryAnalysis is stored (its dump always
carries required_departments), when the reasoning-service path fails
(oracle `none`) and the step budget is not exhausted, the Decision node's
fallback delegates to the FIRST required department absent from
partial_results with confidence 0.5 (research gets its dedicated input
shape, every other department the generic task/context shape), and
decides complete with confidence 0.5 when none is absent. -/
theorem c8_fallback (s : OmniState) (qa : QueryAnalysis)
    (hqa : s.query_analysis = some qa)
    (h : s.control.current_step < s.control.max_steps) :
    (qa.required_departments.filter
        (fun dept => !(hasKey s.partial_results (some dept))) = [] →
      decisionOf (orchestrator_decision none s) =
        some { action := .complete,
               reasoning := "Fallback: All required departments have results",
               confidence := 1/2 }) ∧
    (∀ t rest,
      qa.required_departments.filter
          (fun dept => !(hasKey s.partial_results (some dept))) = t :: rest →
      decisionOf (orchestrator_decision none s) =
        some { action := .delegate, target_crew := some t,
               crew_input := some (fallbackInput s t),
               reasoning := "Fallback: Delegating to " ++ t,
               confidence := 1/2 }) := by
  have hnb : ¬ (s.control.current_step ≥ s.control.max_steps) := not_le.mpr h
  constructor
  · intro hm
    simp [orchestrator_decision, decisionOf, decisionUpdate, fallbackDecision, hnb, hqa, hm]
  · intro t rest hm
    simp [orchestrator_decision, decisionOf, decisionUpdate, fallbackDecision, hnb, hqa, hm,
          fallbackInput]

/-- The QueryAnalysis of the claim's concrete scenario. -/
def qaResearchWriting : QueryAnalysis :=
  { intent := "multi_step", required_departments := ["research", "writing"]
    complexity := "moderate", workflow_pattern := "sequential" }

/-- The claim's concrete scenario: required departments
["research","writing"], a research result already in partial_results, no
writing result, budget not exhausted. -/
def sResearchDone : OmniState :=
  { create_initial_state "task-8" "sess-8" "Research AI trends" with
    query_analysis := some qaResearchWriting
    partial_results := [(some "research",
      [("crew", .str "research"), ("status", .str "completed")])] }

/-- C8 witness: with the reasoning service failing at that scenario, the
fallback delegates to "writing" with confidence 0.5 and the generic
task/context input shape. -/
theorem c8_fallback_witness :
    decisionOf (orchestrator_decision none sResearchDone) =
      some { action := .delegate, target_crew := some "writing",
             crew_input := some [("task", .str "Research AI trends"),
                                 ("context", .str "Research AI trends")],
             reasoning := "Fallback: Delegating to writing",
             confidence := 1/2 } :=
  (c8_fallback sResearchDone qaResearchWriting rfl (by decide)).2 "writing" [] (by decide)

/-- The truncation pass never touches the task section. -/
theorem truncate_preserves_task (cm : ContextManager) (c : ContextSections) :
    (cm.truncate c).task = c.task := by
  unfold ContextManager.truncate
  dsimp only
  split <;> (try split) <;> rfl

/-- The truncation pass never touches the objective section. -/
theorem truncate_preserves_objective (cm : ContextManager) (c : ContextSections) :
    (cm.truncate c).objective = c.objective := by
  unfold ContextManager.truncate
  dsimp only
  split <;> (try split) <;> rfl

/-- C9: `build_context` truncates exactly when the summed character-based
token estimate of the raw sections exceeds
`available = max_tokens - reserved_tokens`, and the truncation is the
staged single pass the claim describes: halve context_msgs first; halve
history only if the recomputed total still exceeds the budget; halve
results only if the total recomputed again still exceeds it.  Each
section is halved at most once and the task and objective sections are
returned untouched. -/
theorem c9_truncation_order (cm : ContextManager) (s : OmniState) :
    (cm.build_context s).task = (cm.rawSections s).task ∧
    (cm.build_context s).objective = (cm.rawSections s).objective ∧
    cm.build_context s =
      (if (totalTokens (cm.rawSections s) : Int) ≤ cm.available_tokens then
         cm.rawSections s
       else
         let c1 := { cm.rawSections s with
                     context_msgs := halfStr (cm.rawSections s).context_msgs }
         let c2 := if (totalTokens c1 : Int) > cm.available_tokens then
             { c1 with history := halfStr c1.history }
           else c1
         if (totalTokens c2 : Int) > cm.available_tokens then
           { c2 with results := halfStr c2.results }
         else c2) := by
  by_cases hover : (totalTokens (cm.rawSections s) : Int) > cm.available_tokens
  · have hbc : cm.build_context s = cm.truncate (cm.rawSections s) := by
      simp [ContextManager.build_context, hover]
    refine ⟨?_, ?_, ?_⟩
    · rw [hbc, truncate_preserves_task]
    · rw [hbc, truncate_preserves_objective]
    · rw [hbc, if_neg (not_le.mpr hover)]
      rfl
  · have hbc : cm.build_context s = cm.rawSections s := by
      simp [ContextManager.build_context, hover]
    exact ⟨by rw [hbc], by rw [hbc], by rw [hbc, if_pos (not_lt.mp hover)]⟩

/-- Association-list lookup distributes over append. -/
theorem lookup_append_pr (l₁ l₂ : PartialResults) (a : Option String) :
    (l₁ ++ l₂).lookup a = ((l₁.lookup a).orElse fun _ => l₂.lookup a) := by
  induction l₁ with
  | nil => simp [List.lookup]
  | cons kv l ih =>
    cases h : a == kv.1 <;> simp [List.lookup, h, ih]

/-- The re-keying map inside `updateDict` preserves which keys are
present. -/
theorem lookup_updateDict_map_isSome (ex nw : PartialResults) (k : Option String) :
    ((ex.map fun kv =>
      match nw.lookup kv.1 with
      | some v => (kv.1, v)
      | none => kv).lookup k).isSome = (ex.lookup k).isSome := by
  induction ex with
  | nil => simp
  | cons kv l ih =>
    cases hv : nw.lookup kv.1 <;>
      cases h : k == kv.1 <;>
        simp [List.lookup, h, hv, ih]

/-- Merging a singleton dict for key `k` guarantees `k` is present in the
result, whatever the existing dict held. -/
theorem hasKey_updateDict_single (ex : PartialResults) (k : Option String) (v : JObj) :
    hasKey (updateDict ex [(k, v)]) k = true := by
  unfold hasKey updateDict
  rw [lookup_append_pr]
  cases hex : ex.lookup k with
  | some w =>
    have h1 := lookup_updateDict_map_isSome ex [(k, v)] k
    rw [hex] at h1
    rcases Option.isSome_iff_exists.mp h1 with ⟨u, hu⟩
    simp [hu]
  | none =>
    have h1 := lookup_updateDict_map_isSome ex [(k, v)] k
    rw [hex] at h1
    have h2 : (ex.map fun kv =>
        match ([(k, v)] : PartialResults).lookup kv.1 with
        | some v => (kv.1, v)
        | none => kv).lookup k = none := by
      rcases hm : (ex.map fun kv =>
          match ([(k, v)] : PartialResults).lookup kv.1 with
          | some v => (kv.1, v)
          | none => kv).lookup k with _ | u
      · exact hm
      · rw [hm] at h1; simp at h1
    rw [h2]
    simp [List.filter, List.lookup, hex]

/-- C10: the Execution node is total and always accounts for its target:
after it runs on a delegate decision targeting `t`, the merged state's
partial_results contains key `t` (a status-"completed" entry when the
registered crew ran on a dict input and succeeded, a status-"failed"
entry when `t` is unregistered, when the crew raised, or when the
decision's crew_input was Python `None` -- which makes the registry call
raise before building anything) and exactly one StepRecord is appended.
Consequently the Decision node's heuristic fallback, which only considers
departments absent from partial_results, never re-delegates to a
department whose execution failed. -/
theorem c10_execution_accounting :
    (∀ (reg : CrewRegistry) (s : OmniState) (d : OrchestratorDecision) (t : String),
       s.current_decision = some d → d.target_crew = some t →
       hasKey (applyUpdate s (crew_execution reg s)).partial_results (some t) = true ∧
       ((crew_execution reg s).partial_results.lookup (some t)).isSome = true ∧
       (crew_execution reg s).history.length = 1 ∧
       (reg.get t = none →
          ((crew_execution reg s).partial_results.lookup (some t)).bind
            (·.lookup "status") = some (.str "failed")) ∧
       (∀ inp r, d.crew_input = some inp → (reg.execute t inp).1 = .ok r →
          (reg.get t).isSome = true →
          ((crew_execution reg s).partial_results.lookup (some t)).bind
            (·.lookup "status") = some (.str "completed")) ∧
       (∀ inp m, d.crew_input = some inp →
          ((reg.execute t inp).1 = .crewExecutionError m ∨
           (reg.execute t inp).1 = .rawError m) →
          ((crew_execution reg s).partial_results.lookup (some t)).bind
            (·.lookup "status") = some (.str "failed")) ∧
       (d.crew_input = none → (reg.get t).isSome = true →
          ((crew_execution reg s).partial_results.lookup (some t)).bind
            (·.lookup "status") = some (.str "failed"))) ∧
    (∀ (s : OmniState) (u : NodeUpdate) (dec : OrchestratorDecision) (t : String),
       orchestrator_decision none s = .ok u →
       u.current_decision = some dec →
       dec.action = .delegate → dec.target_crew = some t →
       hasKey s.partial_results (some t) = false) := by
  constructor
  · intro reg s d t hd ht
    have htc : s.current_decision.bind (fun d => d.target_crew) = some t := by
      rw [hd]; simpa using ht
    have hic : crewInputOf s.current_decision = d.crew_input := by
      rw [hd]; rfl
    have hsingle : ∃ out : JObj,
        (crew_execution reg s).partial_results = [(some t, out)] := by
      rcases hg : reg.get t with _ | cls
      · exact ⟨_, by simp [crew_execution, crewNotFoundUpdate, htc, hic, hg]; rfl⟩
      · rcases hin : d.crew_input with _ | inp
        · exact ⟨_, by simp [crew_execution, crewFailedUpdate, htc, hic, hin, hg]; rfl⟩
        · rcases hr : (reg.execute t inp).1 with r | e | e | e <;>
            exact ⟨_, by simp [crew_execution, crewFailedUpdate, htc, hic, hin, hg, hr]; rfl⟩
    obtain ⟨out, hout⟩ := hsingle
    refine ⟨?_, ?_, ?_, fun hg => ?_, fun inp r hin hr hsome => ?_,
            fun inp m hin hm => ?_, fun hin hsome => ?_⟩
    · show hasKey (updateDict s.partial_results (crew_execution reg s).partial_results)
        (some t) = true
      rw [hout]
      exact hasKey_updateDict_single s.partial_results (some t) out
    · rw [hout]; simp [List.lookup]
    · rcases hg : reg.get t with _ | cls
      · simp [crew_execution, crewNotFoundUpdate, htc, hic, hg]
      · rcases hin : d.crew_input with _ | inp
        · simp [crew_execution, crewFailedUpdate, htc, hic, hin, hg]
        · rcases hr : (reg.execute t inp).1 with r | e | e | e <;>
            simp [crew_execution, crewFailedUpdate, htc, hic, hin, hg, hr]
    · simp [crew_execution, crewNotFoundUpdate, htc, hic, hg, List.lookup]
    · rcases hg : reg.get t with _ | cls
      · rw [hg] at hsome; simp at hsome
      · simp [crew_execution, htc, hic, hin, hg, hr, List.lookup]
    · rcases hg : reg.get t with _ | cls
      · simp [crew_execution, crewNotFoundUpdate, htc, hic, hg, List.lookup]
      · rcases hm with hm | hm <;>
          simp [crew_execution, crewFailedUpdate, htc, hic, hin, hg, hm, List.lookup]
    · rcases hg : reg.get t with _ | cls
      · rw [hg] at hsome; simp at hsome
      · simp [crew_execution, crewFailedUpdate, htc, hic, hin, hg, List.lookup]
  · intro s u dec t hu hdec hact ht
    by_cases hb : s.control.current_step ≥ s.control.max_steps
    · simp [orchestrator_decision, hb] at hu
      subst hu
      simp at hdec
      rw [← hdec] at hact
      simp at hact
    · rcases hqa : s.query_analysis with _ | qa
      · simp [orchestrator_decision, hb, hqa] at hu
      · simp [orchestrator_decision, hb, hqa] at hu
        subst hu
        simp [decisionUpdate] at hdec
        rcases hm : qa.required_departments.filter
            (fun dept => !(hasKey s.partial_results (some dept))) with _ | ⟨t0, rest⟩
        · rw [← hdec] at hact
          simp [fallbackDecision, hm] at hact
        · have ht0 : dec.target_crew = some t0 := by
            rw [← hdec]; simp [fallbackDecision, hm]
          rw [ht0] at ht
          have htt : t0 = t := by injection ht
          have hmem : t0 ∈ qa.required_departments.filter
              (fun dept => !(hasKey s.partial_results (some dept))) := by
            rw [hm]; exact List.mem_cons_self t0 rest
          have hp := List.of_mem_filter hmem
          rw [htt] at hp
          simpa using hp

/-- A delegate decision targeting the unregistered name "ghost". -/
def dGhost : OrchestratorDecision :=
  { action := .delegate, target_crew := some "ghost"
    crew_input := some [("task", .str "haunt")]
    reasoning := "delegate to ghost", confidence := 3/5 }

/-- A state delegating to "ghost" with an empty registry in play. -/
def sGhost : OmniState :=
  { create_initial_state "task-10" "sess-10" "spooky" with
    current_decision := some dGhost }

/-- The empty capability registry. -/
def regEmpty : CrewRegistry := ⟨[]⟩

/-- A crew class "gr" that would build and kick off successfully. -/
def clsGr : CrewClass := { name := "gr", build_crew := .ok objPlain }

/-- A registry holding the crew "gr". -/
def regGr : CrewRegistry := ⟨[("gr", clsGr)]⟩

/-- A delegate decision targeting "gr" whose crew_input is Python None. -/
def dNoneInput : OrchestratorDecision :=
  { action := .delegate, target_crew := some "gr", crew_input := none
    reasoning := "delegate with no input", confidence := 1/2 }

/-- A state delegating to "gr" with crew_input None. -/
def sNoneInput : OmniState :=
  { create_initial_state "task-10b" "sess-10b" "no input" with
    current_decision := some dNoneInput }

/-- A state with a stored QueryAnalysis and empty partial_results, at
which the fallback delegates to "research". -/
def sC10qa : OmniState :=
  { create_initial_state "task-10c" "sess-10c" "fresh topic" with
    query_analysis := some qaResearchOnly }

/-- C10 witness: executing the unregistered target "ghost" records a
status-"failed" entry under key "ghost" and one StepRecord; executing the
registered crew "gr" with a Python-None crew_input also records a
status-"failed" entry; and the fallback at a state with a stored
QueryAnalysis only targets a department absent from partial_results. -/
theorem c10_execution_witness :
    (hasKey (applyUpdate sGhost (crew_execution regEmpty sGhost)).partial_results
       (some "ghost") = true ∧
     (crew_execution regEmpty sGhost).history.length = 1 ∧
     ((crew_execution regEmpty sGhost).partial_results.lookup (some "ghost")).bind
       (·.lookup "status") = some (.str "failed")) ∧
    ((crew_execution regGr sNoneInput).partial_results.lookup (some "gr")).bind
      (·.lookup "status") = some (.str "failed") ∧
    hasKey sC10qa.partial_results (some "research") = false := by
  obtain ⟨h1, h2, h3, h4, h5, h6, h7⟩ :=
    c10_execution_accounting.1 regEmpty sGhost dGhost "ghost" rfl rfl
  obtain ⟨g1, g2, g3, g4, g5, g6, g7⟩ :=
    c10_execution_accounting.1 regGr sNoneInput dNoneInput "gr" rfl rfl
  exact ⟨⟨h1, h3, h4 rfl⟩, g7 rfl rfl,
    c10_execution_accounting.2 sC10qa
      (decisionUpdate sC10qa (fallbackDecision sC10qa qaResearchOnly))
      (fallbackDecision sC10qa qaResearchOnly) "research" rfl rfl rfl rfl⟩

end Omni
